import Mathlib

/-!
Shallow embedding of the upload core of
`js/packages/cli/src/helpers/upload/arweave-bundle.ts`.

File sizes, file contents, metadata parsing, MIME inference, the signing
capability and the network submission step are the external collaborators of
that module; they are modelled as explicit oracle functions carried in an
environment, so every definition stays executable. Machine numbers in the
source are JavaScript numbers used only for byte counting, embedded as Nat.
-/

set_option maxRecDepth 16000

namespace ArweaveBundle

/-- A key/value tag attached to a data item, mirroring the arbundles tag
objects used throughout the source. -/
structure Tag where
  name : String
  value : String
deriving DecidableEq, Repr

/-- A signed, addressable unit: the embedding of an arbundles DataItem after
`createData` and `sign` have run. The `id` field is the address assigned at
signing time, obtained from the signing oracle. -/
structure DataItem where
  data : String
  tags : List Tag
  id : String
deriving DecidableEq, Repr

/-- The `Manifest` type of the source (the asset metadata document in its
minimal declared form: an `image` field and `properties.files`, the latter a
list of type/uri entries). -/
structure Manifest where
  image : String
  files : List (String × String)
deriving DecidableEq, Repr

/-- The `ArweavePathManifest` of the source, with its constant fields
(`manifest`, `version`, `index`) kept in the serializer and only the varying
parts stored: the `image<mediaType>` path key and the two transaction ids. -/
structure ArweavePathManifest where
  imagePathKey : String
  imageId : String
  metadataId : String
deriving DecidableEq, Repr

/-- The `FilePair` type of the source. -/
structure FilePair where
  key : String
  image : String
  manifest : String
deriving DecidableEq, Repr

/-- The `BundleRange` type of the source. -/
structure BundleRange where
  count : Nat
  size : Nat
deriving DecidableEq, Repr

/-- The `AssetKey` type consumed by the generator (an index and a media file
extension). -/
structure AssetKey where
  index : String
  mediaExt : String
deriving DecidableEq, Repr

/-- The `ProcessedBundleFilePairs` accumulator of the source. -/
structure ProcessedBundleFilePairs where
  cacheKeys : List String
  dataItems : List DataItem
  arweavePathManifestLinks : List String
  updatedManifests : List Manifest
deriving DecidableEq, Repr

/-- The `UploadGeneratorResult` of the source: `ProcessedBundleFilePairs`
without the binary data items. -/
structure UploadGeneratorResult where
  cacheKeys : List String
  arweavePathManifestLinks : List String
  updatedManifests : List Manifest
deriving DecidableEq, Repr

/-- Failures surfaced by the upload core. `oversizedPair` embeds the Error
thrown in `getBundleRange` (its message interpolates the pair key and the
measured size); `invalidMetadata` embeds a failed read or parse of a metadata
file inside `getUpdatedManifest`; `network` stands for a rejected signing or
submission call. -/
inductive UploadError where
  | oversizedPair (key : String) (size : Nat)
  | invalidMetadata (path : String)
  | network (message : String)
deriving DecidableEq, Repr

/-- Observable build events of per-pair processing, recorded in source order:
the image data item is created and signed first, then (after the metadata file
was read successfully) the manifest data item, then the path-manifest data
item. -/
inductive BuiltEvent where
  | imageUnit (key : String)
  | manifestUnit (key : String)
  | pathManifestUnit (key : String)
deriving DecidableEq, Repr

/-- The two storage selectors the generator inspects (`StorageType.ArweaveSol`
and `StorageType.ArweaveBundle` in the source). -/
inductive StorageType where
  | arweaveSol
  | arweaveBundle
deriving DecidableEq, Repr

/-- The ambient collaborators of the module: `sz` is `stat(file).size`,
`imageBytes` is `readFile` on an image path, `manifestDoc` is
`readFile` plus `JSON.parse` on a metadata path (`none` encodes a missing or
malformed file), `mimeOf` is `getType`, `extOf` is `getExtension`, and `idOf`
is the signing capability assigning an address to given bytes and tags. -/
structure Env where
  sz : String → Nat
  imageBytes : String → String
  manifestDoc : String → Option Manifest
  mimeOf : String → String
  extOf : String → String
  idOf : String → List Tag → String

/-- `BUNDLE_SIZE_BYTE_LIMIT` of the source. -/
def BUNDLE_SIZE_BYTE_LIMIT : Nat := 50 * 1024 * 1024

/-- `BASE_TAGS` of the source. -/
def BASE_TAGS : List Tag := [⟨"App-Name", "Metaplex Candy Machine"⟩]

/-- The `json` entry of `contentTypeTags`. -/
def contentTypeTagJson : Tag := ⟨"Content-Type", "application/json"⟩

/-- The `arweave-manifest` entry of `contentTypeTags`. -/
def contentTypeTagArweaveManifest : Tag :=
  ⟨"Content-Type", "application/x.arweave-manifest+json"⟩

/-- `createArweavePathManifest` of the source: binds the image transaction id
and the metadata transaction id, with the image served under
`image<mediaType>` and the metadata under `metadata.json`. -/
def createArweavePathManifest (imageTxId manifestTxId mediaType : String) :
    ArweavePathManifest :=
  { imagePathKey := "image" ++ mediaType
    imageId := imageTxId
    metadataId := manifestTxId }

/-- JSON.stringify of one entry of `properties.files`. -/
def serializeFileEntry (e : String × String) : String :=
  "\x7b\"type\":\"" ++ e.1 ++ "\",\"uri\":\"" ++ e.2 ++ "\"\x7d"

/-- JSON.stringify of a `Manifest` in its minimal declared form. -/
def serializeManifest (m : Manifest) : String :=
  "\x7b\"image\":\"" ++ m.image ++ "\",\"properties\":\x7b\"files\":[" ++
    String.intercalate "," (m.files.map serializeFileEntry) ++ "]\x7d\x7d"

/-- JSON.stringify of an `ArweavePathManifest`, laid out exactly as
JavaScript serializes the object literal built in
`createArweavePathManifest` (insertion order, no whitespace). -/
def serializeArweavePathManifest (m : ArweavePathManifest) : String :=
  "\x7b\"manifest\":\"arweave/paths\",\"version\":\"0.1.0\",\"paths\":\x7b\""
    ++ m.imagePathKey ++ "\":\x7b\"id\":\"" ++ m.imageId
    ++ "\"\x7d,\"metadata.json\":\x7b\"id\":\"" ++ m.metadataId
    ++ "\"\x7d\x7d,\"index\":\x7b\"path\":\"metadata.json\"\x7d\x7d"

/-- `dummyAreaveManifestByteSize` of the source: the byte length of the
JSON serialization of a representative dummy path manifest, computed once and
used as the fixed per-pair overhead in `getBundleRange`. -/
def dummyAreaveManifestByteSize : Nat :=
  (serializeArweavePathManifest (createArweavePathManifest
    "akBSbAEWTf6xDDnrG_BHKaxXjxoGuBnuhMnoYKUCDZo"
    "akBSbAEWTf6xDDnrG_BHKaxXjxoGuBnuhMnoYKUCDZo"
    ".png")).utf8ByteSize

/-- The measured size of one file pair inside `getBundleRange`: the reduce
over `[image, manifest]` starting from `dummyAreaveManifestByteSize` and
adding `stat(file).size` for each of the two files. -/
def filePairSize (env : Env) (p : FilePair) : Nat :=
  dummyAreaveManifestByteSize + env.sz p.image + env.sz p.manifest

/-- The loop of `getBundleRange`, with the running `count` and `total`
accumulators made explicit. The source checks
`total + filePairSize >= BUNDLE_SIZE_BYTE_LIMIT`; when it trips on the very
first pair (`count === 0`) an Error naming the pair key and its size is
thrown, otherwise the loop breaks and the current accumulators are
returned. -/
def getBundleRangeAux (env : Env) :
    List FilePair → Nat → Nat → Except UploadError BundleRange
  | [], count, total => .ok ⟨count, total⟩
  | p :: rest, count, total =>
    if BUNDLE_SIZE_BYTE_LIMIT ≤ total + filePairSize env p then
      if count = 0 then
        .error (.oversizedPair p.key (filePairSize env p))
      else
        .ok ⟨count, total⟩
    else
      getBundleRangeAux env rest (count + 1) (total + filePairSize env p)

/-- `getBundleRange` of the source (the `computeRange` of the design
document). -/
def getBundleRange (env : Env) (filePairs : List FilePair) :
    Except UploadError BundleRange :=
  getBundleRangeAux env filePairs 0 0

/-- Cumulative measured size of the first `n` file pairs, in supplied
order. -/
def prefixSize (env : Env) (filePairs : List FilePair) (n : Nat) : Nat :=
  ((filePairs.take n).map (filePairSize env)).sum

/-- `imageTags` of the source. -/
def imageTags : List Tag := BASE_TAGS

/-- `manifestTags` of the source. -/
def manifestTags : List Tag := BASE_TAGS ++ [contentTypeTagJson]

/-- `arweavePathManifestTags` of the source. -/
def arweavePathManifestTags : List Tag := BASE_TAGS ++ [contentTypeTagArweaveManifest]

/-- `getImageDataItem` followed by the `imageDataItem.sign(signer)` call of the
source: the raw image bytes, the image tags extended with the inferred
content type, and the address assigned by the signing capability. -/
def getImageDataItem (env : Env) (image : String) (contentType : String) : DataItem :=
  { data := env.imageBytes image
    tags := imageTags ++ [⟨"Content-Type", contentType⟩]
    id := env.idOf (env.imageBytes image) (imageTags ++ [⟨"Content-Type", contentType⟩]) }

/-- `getManifestDataItem` followed by its `sign` call. -/
def getManifestDataItem (env : Env) (manifest : Manifest) : DataItem :=
  { data := serializeManifest manifest
    tags := manifestTags
    id := env.idOf (serializeManifest manifest) manifestTags }

/-- `getArweavePathManifestDataItem` followed by its `sign` call. -/
def getArweavePathManifestDataItem (env : Env) (apm : ArweavePathManifest) : DataItem :=
  { data := serializeArweavePathManifest apm
    tags := arweavePathManifestTags
    id := env.idOf (serializeArweavePathManifest apm) arweavePathManifestTags }

/-- `getUpdatedManifest` of the source: read and parse the metadata file, then
overwrite its `image` field and its `properties.files` list with the image
link. A missing or malformed file makes the read reject. -/
def getUpdatedManifest (env : Env) (manifestPath : String) (imageLink : String)
    (contentType : String) : Except UploadError Manifest :=
  match env.manifestDoc manifestPath with
  | none => .error (.invalidMetadata manifestPath)
  | some m => .ok { m with image := imageLink, files := [(contentType, imageLink)] }

/-- `processBundleFilePair` of the source, for a single pair: build and sign
the image item, derive the image link, read and update the metadata, build and
sign the manifest item, build and sign the path-manifest item, then extend the
accumulator. The first component records which units were built (and signed)
before the pair finished or failed; note that the source builds and signs the
image item before it reads the metadata file, and that the link pushed onto
`arweavePathManifestLinks` is derived from `manifestDataItem.id`. -/
def processBundleFilePair (env : Env) (acc : ProcessedBundleFilePairs)
    (filePair : FilePair) :
    List BuiltEvent × Except UploadError ProcessedBundleFilePairs :=
  let contentType := env.mimeOf filePair.image
  let imageDataItem := getImageDataItem env filePair.image contentType
  let imageLink := "https://arweave.net/" ++ imageDataItem.id
  match getUpdatedManifest env filePair.manifest imageLink contentType with
  | .error e => ([.imageUnit filePair.key], .error e)
  | .ok manifest =>
    let manifestDataItem := getManifestDataItem env manifest
    let arweavePathManifest := createArweavePathManifest imageDataItem.id
      manifestDataItem.id ("." ++ env.extOf contentType)
    let arweavePathManifestDataItem :=
      getArweavePathManifestDataItem env arweavePathManifest
    let arweavePathManifestLink := "https://arweave.net/" ++ manifestDataItem.id
    ([.imageUnit filePair.key, .manifestUnit filePair.key,
      .pathManifestUnit filePair.key],
     .ok { cacheKeys := acc.cacheKeys ++ [filePair.key]
           dataItems := acc.dataItems ++
             [imageDataItem, manifestDataItem, arweavePathManifestDataItem]
           arweavePathManifestLinks :=
             acc.arweavePathManifestLinks ++ [arweavePathManifestLink]
           updatedManifests := acc.updatedManifests ++ [manifest] })

/-- The sequential `reduce` over the pairs of a bundle. A rejection while
processing one pair stops the chain: later pairs are not processed. -/
def processBundleFilePairs (env : Env) :
    List FilePair → ProcessedBundleFilePairs →
    List BuiltEvent × Except UploadError ProcessedBundleFilePairs
  | [], acc => ([], .ok acc)
  | p :: rest, acc =>
    match processBundleFilePair env acc p with
    | (evs, .error e) => (evs, .error e)
    | (evs, .ok acc') =>
      let r := processBundleFilePairs env rest acc'
      (evs ++ r.1, r.2)

/-- The empty accumulator the reduce starts from. -/
def emptyProcessed : ProcessedBundleFilePairs := ⟨[], [], [], []⟩

/-- The empty result yielded at the first resumption. -/
def emptyResult : UploadGeneratorResult := ⟨[], [], []⟩

/-- One iteration of the `while (filePairs.length)` loop: the `processBundle`
continuation of the source. Computes the range, splices the leading `count`
pairs out of the pending list (the splice happens before per-pair processing,
so the remaining list is the dropped suffix even when processing or
submission fails), processes the batch, then submits it through the injected
submission step `post` (`none` encodes success). A rejected range computation
leaves the pending list untouched because the splice lives inside the
rejected continuation. -/
def stepBundle (env : Env) (post : List DataItem → Option UploadError)
    (filePairs : List FilePair) :
    Except UploadError UploadGeneratorResult × List FilePair :=
  match getBundleRange env filePairs with
  | .error e => (.error e, filePairs)
  | .ok range =>
    match (processBundleFilePairs env (filePairs.take range.count) emptyProcessed).2 with
    | .error e => (.error e, filePairs.drop range.count)
    | .ok acc =>
      match post acc.dataItems with
      | some e => (.error e, filePairs.drop range.count)
      | none =>
        (.ok ⟨acc.cacheKeys, acc.arweavePathManifestLinks, acc.updatedManifests⟩,
         filePairs.drop range.count)

/-- The unfolding of the generator loop under a single consumer that settles
each yielded promise before resuming: the list of per-resumption outcomes
after the initial empty yield. `fuel` bounds the number of resumptions taken
(the source loop need not terminate: a range rejection leaves the pending
list unchanged forever). -/
def runGenerator (env : Env) (post : List DataItem → Option UploadError) :
    Nat → List FilePair → List (Except UploadError UploadGeneratorResult)
  | 0, _ => []
  | fuel + 1, filePairs =>
    if filePairs.isEmpty then []
    else
      (stepBundle env post filePairs).1 ::
        runGenerator env post fuel (stepBundle env post filePairs).2

/-- The credential checks at the top of `makeArweaveBundleUploadGenerator`,
in source order: SOL-funded uploads demand a wallet keypair, and the
AR-bundle branch raises its configuration error whenever that storage type is
selected (the source condition is `storage === StorageType.ArweaveBundle`,
with no test of `jwk`). -/
def checkConfig (storage : StorageType) (jwk : Option String)
    (walletKeyPair : Option String) : Except String Unit :=
  if storage = StorageType.arweaveSol ∧ walletKeyPair = none then
    .error "To pay for uploads with SOL, you need to pass a Solana Keypair"
  else if storage = StorageType.arweaveBundle then
    .error "To pay for uploads with AR, you need to pass a Arweave JWK"
  else
    .ok ()

/-- The `assets.map` at the top of the generator: `path.join(dirname, ...)`
over the asset index and its media extension, and over the index with the
`.json` suffix. -/
def toFilePair (dirname : String) (asset : AssetKey) : FilePair :=
  { key := asset.index
    image := dirname ++ "/" ++ asset.index ++ asset.mediaExt
    manifest := dirname ++ "/" ++ asset.index ++ ".json" }

/-- The yielded results of a constructed generator, driven to exhaustion (or
to `fuel` resumptions): the initial empty result followed by one outcome per
bundle. -/
def generatorYields (env : Env) (post : List DataItem → Option UploadError)
    (fuel : Nat) (dirname : String) (assets : List AssetKey) :
    List (Except UploadError UploadGeneratorResult) :=
  .ok emptyResult :: runGenerator env post fuel (assets.map (toFilePair dirname))

/-- `makeArweaveBundleUploadGenerator` of the source: run the credential
checks, then expose the yielded results of the generator body. -/
def makeArweaveBundleUploadGenerator (env : Env)
    (post : List DataItem → Option UploadError) (fuel : Nat)
    (storage : StorageType) (dirname : String) (assets : List AssetKey)
    (jwk : Option String) (walletKeyPair : Option String) :
    Except String (List (Except UploadError UploadGeneratorResult)) :=
  match checkConfig storage jwk walletKeyPair with
  | .error e => .error e
  | .ok _ => .ok (generatorYields env post fuel dirname assets)

/-- True on a fulfilled resumption outcome. -/
def exceptIsOk : Except UploadError UploadGeneratorResult → Bool
  | .ok _ => true
  | .error _ => false

/-- Concatenation, in yield order, of the `cacheKeys` of the fulfilled
resumption outcomes. -/
def yieldedKeys : List (Except UploadError UploadGeneratorResult) → List String
  | [] => []
  | .ok u :: rest => u.cacheKeys ++ yieldedKeys rest
  | .error _ :: rest => yieldedKeys rest

/-- The three build events of a fully processed pair, in source order. -/
def pairEvents (p : FilePair) : List BuiltEvent :=
  [.imageUnit p.key, .manifestUnit p.key, .pathManifestUnit p.key]

/-- Build events of a list of fully processed pairs. -/
def batchEvents : List FilePair → List BuiltEvent
  | [] => []
  | p :: rest => pairEvents p ++ batchEvents rest

/-- The `arweavePathManifestLinks` of a processing outcome (empty on
rejection). -/
def linksOfProcessed : Except UploadError ProcessedBundleFilePairs → List String
  | .ok acc => acc.arweavePathManifestLinks
  | .error _ => []

/-- The addresses of the data items of a processing outcome, in build order
(empty on rejection). -/
def itemIdsOfProcessed : Except UploadError ProcessedBundleFilePairs → List String
  | .ok acc => acc.dataItems.map DataItem.id
  | .error _ => []

/-- The value of the last tag of a list; a convenient concrete signing oracle
for the test environments below (distinct unit kinds carry distinct
content-type tags, so their addresses come out distinct). -/
def lastTagValue (tags : List Tag) : String :=
  match tags.reverse with
  | [] => ""
  | t :: _ => t.value

/-- A benign concrete environment: every file is one megabyte, every metadata
file parses, MIME inference says png. -/
def envA : Env :=
  { sz := fun _ => 1000000
    imageBytes := fun s => "IMG:" ++ s
    manifestDoc := fun _ => some ⟨"placeholder://img", [("image/png", "placeholder://img")]⟩
    mimeOf := fun _ => "image/png"
    extOf := fun _ => "png"
    idOf := fun _ tags => lastTagValue tags }

/-- Like `envA`, except that the metadata file `assets/1.json` is missing. -/
def envB : Env :=
  { envA with manifestDoc := fun s =>
      if s = "assets/1.json" then none
      else some ⟨"placeholder://img", [("image/png", "placeholder://img")]⟩ }

/-- Like `envA`, with thirty-megabyte files, so that a single pair outgrows
the bundle ceiling. -/
def envBig : Env := { envA with sz := fun _ => 30000000 }

/-- A submission step that always succeeds. -/
def postOk : List DataItem → Option UploadError := fun _ => none

/-- Concrete file pair with index 0. -/
def pair0 : FilePair := ⟨"0", "assets/0.png", "assets/0.json"⟩

/-- Concrete file pair with index 1. -/
def pair1 : FilePair := ⟨"1", "assets/1.png", "assets/1.json"⟩

/-! ### Lemmas about the range computation -/

theorem prefixSize_zero (env : Env) (pairs : List FilePair) :
    prefixSize env pairs 0 = 0 := by
  simp [prefixSize]

theorem prefixSize_cons_succ (env : Env) (p : FilePair) (rest : List FilePair)
    (n : Nat) :
    prefixSize env (p :: rest) (n + 1) = filePairSize env p + prefixSize env rest n := by
  simp [prefixSize, List.take_succ_cons]

/-- Full characterization of a fulfilled `getBundleRangeAux` call: the result
counts some prefix of length `k` of the remaining pairs, its size is the
running total plus the measured sizes of that prefix in supplied order, every
extension step taken stayed strictly below the ceiling, and the next pair (if
one exists) would have reached it. -/
theorem getBundleRangeAux_ok (env : Env) :
    ∀ (pairs : List FilePair) (count total : Nat) (r : BundleRange),
      getBundleRangeAux env pairs count total = .ok r →
      ∃ k, r.count = count + k ∧ k ≤ pairs.length ∧
        r.size = total + prefixSize env pairs k ∧
        (∀ j, j + 1 ≤ k → total + prefixSize env pairs (j + 1) < BUNDLE_SIZE_BYTE_LIMIT) ∧
        (∀ q, pairs[k]? = some q →
          BUNDLE_SIZE_BYTE_LIMIT ≤ total + prefixSize env pairs k + filePairSize env q) := by
  intro pairs
  induction pairs with
  | nil =>
    intro count total r h
    simp only [getBundleRangeAux] at h
    injection h with h
    subst h
    exact ⟨0, rfl, Nat.le_refl 0, by simp [prefixSize], by omega, by simp⟩
  | cons p rest ih =>
    intro count total r h
    simp only [getBundleRangeAux] at h
    by_cases hle : BUNDLE_SIZE_BYTE_LIMIT ≤ total + filePairSize env p
    · rw [if_pos hle] at h
      by_cases hc : count = 0
      · rw [if_pos hc] at h
        exact absurd h (by simp)
      · rw [if_neg hc] at h
        injection h with h
        subst h
        refine ⟨0, rfl, Nat.zero_le _, by simp [prefixSize], by omega, ?_⟩
        intro q hq
        rw [List.getElem?_cons_zero] at hq
        injection hq with hq
        subst hq
        simpa [prefixSize] using hle
    · rw [if_neg hle] at h
      obtain ⟨k, hk, hkl, hs, hb, hstop⟩ := ih (count + 1) (total + filePairSize env p) r h
      refine ⟨k + 1, by omega, by simpa using Nat.succ_le_succ hkl, ?_, ?_, ?_⟩
      · rw [prefixSize_cons_succ]
        omega
      · intro j hj
        cases j with
        | zero =>
          rw [prefixSize_cons_succ, prefixSize_zero]
          omega
        | succ j' =>
          have hb' := hb j' (by omega)
          rw [prefixSize_cons_succ]
          omega
      · intro q hq
        rw [List.getElem?_cons_succ] at hq
        have := hstop q hq
        rw [prefixSize_cons_succ]
        omega

/-- A fulfilled range on a non-empty pending list counts at least one pair. -/
theorem getBundleRange_ok_pos (env : Env) (p : FilePair) (rest : List FilePair)
    (r : BundleRange) (h : getBundleRange env (p :: rest) = .ok r) :
    1 ≤ r.count := by
  unfold getBundleRange at h
  simp only [getBundleRangeAux] at h
  by_cases hle : BUNDLE_SIZE_BYTE_LIMIT ≤ 0 + filePairSize env p
  · rw [if_pos hle] at h
    simp at h
  · rw [if_neg hle] at h
    obtain ⟨k, hk, -⟩ := getBundleRangeAux_ok env rest 1 (0 + filePairSize env p) r h
    omega

/-- A fulfilled range never counts more pairs than are pending. -/
theorem getBundleRange_count_le (env : Env) (pairs : List FilePair)
    (r : BundleRange) (h : getBundleRange env pairs = .ok r) :
    r.count ≤ pairs.length := by
  obtain ⟨k, hk, hkl, -⟩ := getBundleRangeAux_ok env pairs 0 0 r h
  omega

/-- The size of a fulfilled range with at least one pair is strictly below
the ceiling. -/
theorem getBundleRange_size_lt (env : Env) (pairs : List FilePair)
    (r : BundleRange) (h : getBundleRange env pairs = .ok r) (hc : 1 ≤ r.count) :
    r.size < BUNDLE_SIZE_BYTE_LIMIT := by
  obtain ⟨k, hk, hkl, hs, hb, -⟩ := getBundleRangeAux_ok env pairs 0 0 r h
  have hb' := hb (k - 1) (by omega)
  have hk1 : k - 1 + 1 = k := by omega
  rw [hk1] at hb'
  omega

/-! ### Claim theorems C1, C2, C3 -/

/-- C1: for every pending list on which it succeeds, `getBundleRange`
accumulates, in the order supplied and without reordering, the measured size
of each pair (payload file plus metadata file plus the fixed per-pair
overhead, the byte length of the dummy link document computed once), and it
stops and returns the current count and cumulative size exactly when adding
the next pair would make the total meet or exceed the ceiling of
`50 * 1024 * 1024` bytes: the returned size is the sum over the returned
prefix in supplied order, every accumulation step stayed strictly below the
ceiling, and the next pending pair, when one exists, would reach it. -/
theorem getBundleRange_greedy_ordered_spec (env : Env) (pairs : List FilePair)
    (r : BundleRange) (h : getBundleRange env pairs = .ok r) :
    (∀ p, filePairSize env p =
      env.sz p.image + env.sz p.manifest + dummyAreaveManifestByteSize) ∧
    r.count ≤ pairs.length ∧
    r.size = prefixSize env pairs r.count ∧
    (∀ j, j + 1 ≤ r.count → prefixSize env pairs (j + 1) < BUNDLE_SIZE_BYTE_LIMIT) ∧
    (∀ q, pairs[r.count]? = some q →
      BUNDLE_SIZE_BYTE_LIMIT ≤ r.size + filePairSize env q) := by
  obtain ⟨k, hk, hkl, hs, hb, hstop⟩ := getBundleRangeAux_ok env pairs 0 0 r h
  have hk' : r.count = k := by omega
  refine ⟨fun p => by unfold filePairSize; omega, by omega, ?_, ?_, ?_⟩
  · rw [hk']
    omega
  · intro j hj
    have := hb j (by omega)
    omega
  · intro q hq
    rw [hk'] at hq
    have := hstop q hq
    omega

/-- Witness for C1 at a concrete environment: two one-megabyte pairs fit in
one bundle of size `2 * (223 + 2000000)`. -/
theorem getBundleRange_greedy_ordered_spec_witness :
    getBundleRange envA [pair0, pair1] = Except.ok ⟨2, 4000446⟩ ∧
    ((∀ p, filePairSize envA p =
        envA.sz p.image + envA.sz p.manifest + dummyAreaveManifestByteSize) ∧
      2 ≤ ([pair0, pair1] : List FilePair).length ∧
      4000446 = prefixSize envA [pair0, pair1] 2 ∧
      (∀ j, j + 1 ≤ 2 → prefixSize envA [pair0, pair1] (j + 1) < BUNDLE_SIZE_BYTE_LIMIT) ∧
      (∀ q, ([pair0, pair1] : List FilePair)[2]? = some q →
        BUNDLE_SIZE_BYTE_LIMIT ≤ 4000446 + filePairSize envA q)) :=
  ⟨rfl, getBundleRange_greedy_ordered_spec envA [pair0, pair1] ⟨2, 4000446⟩ rfl⟩

/-- C2: when the measured size of the first pending pair alone meets or
exceeds the ceiling, `getBundleRange` rejects with the oversized-pair error
carrying that pair key and its measured size, and returns no range. -/
theorem getBundleRange_oversized_first_pair (env : Env) (p : FilePair)
    (rest : List FilePair) (h : BUNDLE_SIZE_BYTE_LIMIT ≤ filePairSize env p) :
    getBundleRange env (p :: rest) =
      .error (.oversizedPair p.key (filePairSize env p)) ∧
    ∀ r, getBundleRange env (p :: rest) ≠ .ok r := by
  have he : getBundleRange env (p :: rest) =
      .error (.oversizedPair p.key (filePairSize env p)) := by
    simp [getBundleRange, getBundleRangeAux, h]
  refine ⟨he, fun r hr => ?_⟩
  rw [he] at hr
  exact Except.noConfusion hr

/-- Witness for C2: with thirty-megabyte files one pair measures
`60000223 ≥ 50 * 1024 * 1024` bytes and the range computation rejects. -/
theorem getBundleRange_oversized_first_pair_witness :
    BUNDLE_SIZE_BYTE_LIMIT ≤ filePairSize envBig pair0 ∧
    (getBundleRange envBig [pair0] =
        Except.error (UploadError.oversizedPair "0" 60000223) ∧
      ∀ r, getBundleRange envBig [pair0] ≠ Except.ok r) :=
  ⟨by decide, getBundleRange_oversized_first_pair envBig pair0 [] (by decide)⟩

/-- C3: on a non-empty pending list every fulfilled `getBundleRange` call
returns a count of at least one, and whenever the returned count exceeds one
the returned cumulative size is strictly below the ceiling. -/
theorem getBundleRange_count_pos_size_lt (env : Env) (pairs : List FilePair)
    (r : BundleRange) (hne : pairs ≠ []) (h : getBundleRange env pairs = .ok r) :
    1 ≤ r.count ∧ (1 < r.count → r.size < BUNDLE_SIZE_BYTE_LIMIT) := by
  cases pairs with
  | nil => exact absurd rfl hne
  | cons p rest =>
    have h1 := getBundleRange_ok_pos env p rest r h
    exact ⟨h1, fun _ => getBundleRange_size_lt env (p :: rest) r h h1⟩

/-- Witness for C3: a single one-megabyte pair gives count one and size
`2000223`. -/
theorem getBundleRange_count_pos_size_lt_witness :
    ([pair0] : List FilePair) ≠ [] ∧
    getBundleRange envA [pair0] = Except.ok ⟨1, 2000223⟩ ∧
    (1 ≤ 1 ∧ (1 < 1 → 2000223 < BUNDLE_SIZE_BYTE_LIMIT)) :=
  ⟨by decide, rfl,
    getBundleRange_count_pos_size_lt envA [pair0] ⟨1, 2000223⟩ (by decide) rfl⟩

/-! ### Claim theorem C4 -/

/-- C4: the SOL-funded strategy without a wallet keypair fails with its
configuration error and with a wallet it proceeds, as the claim states; but
the AR-bundle strategy fails with the missing-JWK configuration error even
when a JWK is supplied, because the source guards that branch on the storage
type alone. The last two conjuncts evaluate the failing input, once at the
check and once at the generator entry point. -/
theorem checkConfig_credential_checks :
    checkConfig StorageType.arweaveSol (some "jwk") none =
      Except.error "To pay for uploads with SOL, you need to pass a Solana Keypair" ∧
    checkConfig StorageType.arweaveSol none (some "keypair") = Except.ok () ∧
    checkConfig StorageType.arweaveBundle (some "jwk") (some "keypair") =
      Except.error "To pay for uploads with AR, you need to pass a Arweave JWK" ∧
    makeArweaveBundleUploadGenerator envA postOk 1 StorageType.arweaveBundle
        "assets" [] (some "jwk") (some "keypair") =
      Except.error "To pay for uploads with AR, you need to pass a Arweave JWK" :=
  ⟨rfl, rfl, rfl, rfl⟩

/-! ### Lemmas about per-pair processing and the generator loop -/

theorem processBundleFilePair_ok_keys (env : Env) (acc : ProcessedBundleFilePairs)
    (p : FilePair) (acc' : ProcessedBundleFilePairs)
    (h : (processBundleFilePair env acc p).2 = .ok acc') :
    acc'.cacheKeys = acc.cacheKeys ++ [p.key] := by
  cases hm : env.manifestDoc p.manifest with
  | none =>
    simp only [processBundleFilePair, getUpdatedManifest, hm] at h
    exact absurd h (by simp)
  | some m =>
    simp only [processBundleFilePair, getUpdatedManifest, hm] at h
    injection h with h
    rw [← h]

/-- A pair with a missing or malformed metadata file: the image unit was
already built and signed, then the read rejects; nothing else of the pair is
built. -/
theorem processBundleFilePair_none (env : Env) (acc : ProcessedBundleFilePairs)
    (p : FilePair) (h : env.manifestDoc p.manifest = none) :
    processBundleFilePair env acc p =
      ([.imageUnit p.key], .error (.invalidMetadata p.manifest)) := by
  simp [processBundleFilePair, getUpdatedManifest, h]

/-- A pair whose metadata file parses: all three units are built, in source
order, and the accumulator is extended. -/
theorem processBundleFilePair_some (env : Env) (acc : ProcessedBundleFilePairs)
    (p : FilePair) (h : (env.manifestDoc p.manifest).isSome = true) :
    ∃ acc', processBundleFilePair env acc p = (pairEvents p, .ok acc') := by
  cases hm : env.manifestDoc p.manifest with
  | none => rw [hm] at h; simp at h
  | some m =>
    simp only [processBundleFilePair, getUpdatedManifest, hm, pairEvents]
    exact ⟨_, rfl⟩

theorem processBundleFilePairs_ok_keys (env : Env) :
    ∀ (batch : List FilePair) (acc acc' : ProcessedBundleFilePairs),
      (processBundleFilePairs env batch acc).2 = .ok acc' →
      acc'.cacheKeys = acc.cacheKeys ++ batch.map FilePair.key := by
  intro batch
  induction batch with
  | nil =>
    intro acc acc' h
    simp only [processBundleFilePairs] at h
    injection h with h
    rw [← h]
    simp
  | cons p rest ih =>
    intro acc acc' h
    simp only [processBundleFilePairs] at h
    rcases hpp : processBundleFilePair env acc p with ⟨evs, res⟩
    rw [hpp] at h
    cases res with
    | error e => simp at h
    | ok mid =>
      simp only [] at h
      have hkeys := ih mid acc' h
      have hmid : mid.cacheKeys = acc.cacheKeys ++ [p.key] :=
        processBundleFilePair_ok_keys env acc p mid (by rw [hpp])
      rw [hkeys, hmid]
      simp

/-- Case analysis of one loop iteration: a rejected range computation leaves
the pending list untouched; a fulfilled one makes the remaining pending list
the dropped suffix, and a fulfilled iteration reports exactly the keys of the
taken prefix, in order. -/
theorem stepBundle_spec (env : Env) (post : List DataItem → Option UploadError)
    (pairs : List FilePair) :
    (∃ e, getBundleRange env pairs = .error e ∧
      stepBundle env post pairs = (.error e, pairs)) ∨
    (∃ r, getBundleRange env pairs = .ok r ∧
      (stepBundle env post pairs).2 = pairs.drop r.count ∧
      ∀ u, (stepBundle env post pairs).1 = .ok u →
        u.cacheKeys = (pairs.take r.count).map FilePair.key) := by
  cases hr : getBundleRange env pairs with
  | error e =>
    left
    exact ⟨e, rfl, by simp [stepBundle, hr]⟩
  | ok r =>
    right
    refine ⟨r, rfl, ?_, ?_⟩
    · simp only [stepBundle, hr]
      cases hproc : (processBundleFilePairs env (pairs.take r.count) emptyProcessed).2 with
      | error e => simp [hproc]
      | ok acc =>
        cases hpost : post acc.dataItems with
        | none => simp [hproc, hpost]
        | some e => simp [hproc, hpost]
    · intro u hu
      cases hproc : (processBundleFilePairs env (pairs.take r.count) emptyProcessed).2 with
      | error e =>
        have hstep : stepBundle env post pairs = (.error e, pairs.drop r.count) := by
          simp [stepBundle, hr, hproc]
        rw [hstep] at hu
        exact absurd hu (by simp)
      | ok acc =>
        cases hpost : post acc.dataItems with
        | some e =>
          have hstep : stepBundle env post pairs = (.error e, pairs.drop r.count) := by
            simp [stepBundle, hr, hproc, hpost]
          rw [hstep] at hu
          exact absurd hu (by simp)
        | none =>
          have hstep : stepBundle env post pairs =
              (.ok ⟨acc.cacheKeys, acc.arweavePathManifestLinks, acc.updatedManifests⟩,
                pairs.drop r.count) := by
            simp [stepBundle, hr, hproc, hpost]
          rw [hstep] at hu
          injection hu with hu
          rw [← hu]
          have hk := processBundleFilePairs_ok_keys env (pairs.take r.count)
            emptyProcessed acc hproc
          simpa [emptyProcessed] using hk

theorem stepBundle_snd_of_ok (env : Env) (post : List DataItem → Option UploadError)
    (pairs : List FilePair) (r : BundleRange)
    (hr : getBundleRange env pairs = .ok r) :
    (stepBundle env post pairs).2 = pairs.drop r.count := by
  rcases stepBundle_spec env post pairs with ⟨e, hr', -⟩ | ⟨r', hr', hsnd, -⟩
  · rw [hr'] at hr
    exact absurd hr (by simp)
  · rw [hr'] at hr
    injection hr with hr
    rw [← hr]
    exact hsnd

theorem runGenerator_nil (env : Env) (post : List DataItem → Option UploadError) :
    ∀ fuel, runGenerator env post fuel [] = [] := by
  intro fuel
  cases fuel <;> simp [runGenerator]

theorem exceptIsOk_true {x : Except UploadError UploadGeneratorResult}
    (h : exceptIsOk x = true) : ∃ u, x = .ok u := by
  cases x with
  | ok u => exact ⟨u, rfl⟩
  | error e => simp [exceptIsOk] at h

/-- The keys reported by a fully fulfilled run over a pending list are that
list in order, provided the fuel covers the pending length (each fulfilled
bundle consumes at least one pair). -/
theorem runGenerator_keys (env : Env) (post : List DataItem → Option UploadError) :
    ∀ (fuel : Nat) (pairs : List FilePair), pairs.length ≤ fuel →
      (runGenerator env post fuel pairs).all exceptIsOk = true →
      yieldedKeys (runGenerator env post fuel pairs) = pairs.map FilePair.key := by
  intro fuel
  induction fuel with
  | zero =>
    intro pairs hlen _
    have hnil : pairs = [] := List.eq_nil_of_length_eq_zero (by omega)
    subst hnil
    simp [runGenerator, yieldedKeys]
  | succ fuel ih =>
    intro pairs hlen hok
    cases pairs with
    | nil => simp [runGenerator, yieldedKeys]
    | cons p rest =>
      simp only [runGenerator, List.isEmpty_cons, Bool.false_eq_true, if_false,
        List.all_cons, Bool.and_eq_true] at hok ⊢
      obtain ⟨hok1, hok2⟩ := hok
      obtain ⟨u, hu⟩ := exceptIsOk_true hok1
      rcases stepBundle_spec env post (p :: rest) with ⟨e, -, hstep⟩ | ⟨r, hr, hsnd, hkeys⟩
      · rw [hstep] at hu
        exact absurd hu (by simp)
      · have hcount := getBundleRange_ok_pos env p rest r hr
        have hcle := getBundleRange_count_le env (p :: rest) r hr
        rw [hsnd] at hok2
        rw [hu, hsnd]
        have hlen' : ((p :: rest).drop r.count).length ≤ fuel := by
          rw [List.length_drop]
          simp only [List.length_cons] at hlen ⊢
          omega
        have htail := ih ((p :: rest).drop r.count) hlen' hok2
        simp only [yieldedKeys]
        rw [htail, hkeys u hu, ← List.map_append, List.take_append_drop]

/-- Every key a run reports belongs to the pending list the run started
from. -/
theorem runGenerator_keys_subset (env : Env) (post : List DataItem → Option UploadError) :
    ∀ (fuel : Nat) (pairs : List FilePair) (k : String),
      k ∈ yieldedKeys (runGenerator env post fuel pairs) →
      k ∈ pairs.map FilePair.key := by
  intro fuel
  induction fuel with
  | zero =>
    intro pairs k hk
    simp [runGenerator, yieldedKeys] at hk
  | succ fuel ih =>
    intro pairs k hk
    cases pairs with
    | nil => simp [runGenerator, yieldedKeys] at hk
    | cons p rest =>
      simp only [runGenerator, List.isEmpty_cons, Bool.false_eq_true, if_false] at hk
      rcases stepBundle_spec env post (p :: rest) with ⟨e, -, hstep⟩ | ⟨r, hr, hsnd, hkeys⟩
      · rw [hstep] at hk
        simp only [yieldedKeys] at hk
        exact ih (p :: rest) k hk
      · rw [hsnd] at hk
        cases hs1 : (stepBundle env post (p :: rest)).1 with
        | error e =>
          rw [hs1] at hk
          simp only [yieldedKeys] at hk
          exact List.map_subset FilePair.key (List.drop_subset r.count (p :: rest))
            (ih _ k hk)
        | ok u =>
          rw [hs1] at hk
          simp only [yieldedKeys, List.mem_append] at hk
          rcases hk with hk | hk
          · rw [hkeys u hs1] at hk
            exact List.map_subset FilePair.key (List.take_subset r.count (p :: rest)) hk
          · exact List.map_subset FilePair.key (List.drop_subset r.count (p :: rest))
              (ih _ k hk)

/-! ### Claim theorems C5, C6, C9, C10 -/

/-- C5: over a run of the orchestrator in which no yielded batch fails (and
which is driven to exhaustion: the fuel covers the pending length, each
fulfilled bundle consuming at least one pair), the concatenation of the
`cacheKeys` of the yielded results, in yield order, is exactly the original
asset keys in their original order, so in particular the lengths sum to the
original pending length. -/
theorem generator_keys_complete_ordered (env : Env)
    (post : List DataItem → Option UploadError) (fuel : Nat) (dirname : String)
    (assets : List AssetKey) (hlen : assets.length ≤ fuel)
    (hok : (generatorYields env post fuel dirname assets).all exceptIsOk = true) :
    yieldedKeys (generatorYields env post fuel dirname assets) =
      assets.map AssetKey.index ∧
    (yieldedKeys (generatorYields env post fuel dirname assets)).length =
      assets.length := by
  have hlen' : (assets.map (toFilePair dirname)).length ≤ fuel := by
    simpa using hlen
  have hok' : (runGenerator env post fuel (assets.map (toFilePair dirname))).all
      exceptIsOk = true := by
    simpa [generatorYields, exceptIsOk] using hok
  have h := runGenerator_keys env post fuel (assets.map (toFilePair dirname)) hlen' hok'
  have hmap : (assets.map (toFilePair dirname)).map FilePair.key =
      assets.map AssetKey.index := by
    simp [List.map_map, Function.comp, toFilePair]
  have hky : yieldedKeys (generatorYields env post fuel dirname assets) =
      assets.map AssetKey.index := by
    simp only [generatorYields, yieldedKeys, emptyResult]
    rw [h, hmap]
    rfl
  exact ⟨hky, by rw [hky]; simp⟩

/-- Witness for C5: two one-megabyte assets, fuel two, all submissions
succeed; the run yields the two keys in order. -/
theorem generator_keys_complete_ordered_witness :
    ([(⟨"0", ".png"⟩ : AssetKey), ⟨"1", ".png"⟩] : List AssetKey).length ≤ 2 ∧
    (generatorYields envA postOk 2 "assets" [⟨"0", ".png"⟩, ⟨"1", ".png"⟩]).all
      exceptIsOk = true ∧
    (yieldedKeys (generatorYields envA postOk 2 "assets" [⟨"0", ".png"⟩, ⟨"1", ".png"⟩]) =
        ([⟨"0", ".png"⟩, ⟨"1", ".png"⟩] : List AssetKey).map AssetKey.index ∧
      (yieldedKeys (generatorYields envA postOk 2 "assets"
          [⟨"0", ".png"⟩, ⟨"1", ".png"⟩])).length =
        ([⟨"0", ".png"⟩, ⟨"1", ".png"⟩] : List AssetKey).length) :=
  ⟨by decide, by decide,
    generator_keys_complete_ordered envA postOk 2 "assets"
      [⟨"0", ".png"⟩, ⟨"1", ".png"⟩] (by decide) (by decide)⟩

/-- C6: whenever the range computation of an iteration is fulfilled the
pending queue afterwards is exactly the original queue with its leading
`count` pairs removed (in particular this holds for every successful batch
iteration, whatever the processing and submission outcomes), and the
generator stops yielding further results exactly when the pending queue is
empty. -/
theorem stepBundle_shrinks_and_stops_iff_empty (env : Env)
    (post : List DataItem → Option UploadError) (pairs : List FilePair)
    (fuel : Nat) (r : BundleRange) (hfuel : 0 < fuel)
    (hr : getBundleRange env pairs = .ok r) :
    (stepBundle env post pairs).2 = pairs.drop r.count ∧
    (runGenerator env post fuel pairs = [] ↔ pairs = []) := by
  refine ⟨stepBundle_snd_of_ok env post pairs r hr, ?_⟩
  cases fuel with
  | zero => omega
  | succ f =>
    cases pairs with
    | nil => simp [runGenerator]
    | cons p rest => simp [runGenerator]

/-- Witness for C6: the two-pair pending list forms one bundle of count two;
the step leaves an empty queue and the one-step run is non-empty. -/
theorem stepBundle_shrinks_and_stops_iff_empty_witness :
    0 < 1 ∧
    getBundleRange envA [pair0, pair1] = Except.ok ⟨2, 4000446⟩ ∧
    ((stepBundle envA postOk [pair0, pair1]).2 =
        ([pair0, pair1] : List FilePair).drop 2 ∧
      (runGenerator envA postOk 1 [pair0, pair1] = [] ↔
        ([pair0, pair1] : List FilePair) = [])) :=
  ⟨by decide, rfl,
    stepBundle_shrinks_and_stops_iff_empty envA postOk [pair0, pair1] 1
      ⟨2, 4000446⟩ (by decide) rfl⟩

/-- C9: a constructed generator always yields the empty result first,
whatever the environment, submission step, assets and fuel (so before any
file is read, any unit is signed, or anything is submitted), and for an empty
asset list that first yield is the only one: the next resumption completes
the run. -/
theorem generator_first_yield_empty (env : Env)
    (post : List DataItem → Option UploadError) (fuel : Nat)
    (storage : StorageType) (dirname : String) (assets : List AssetKey)
    (jwk : Option String) (walletKeyPair : Option String)
    (ys : List (Except UploadError UploadGeneratorResult))
    (h : makeArweaveBundleUploadGenerator env post fuel storage dirname assets
      jwk walletKeyPair = .ok ys) :
    ys.head? = some (.ok emptyResult) ∧
    (assets = [] → ys = [Except.ok emptyResult]) := by
  unfold makeArweaveBundleUploadGenerator at h
  cases hc : checkConfig storage jwk walletKeyPair with
  | error e =>
    rw [hc] at h
    exact absurd h (by simp)
  | ok u =>
    rw [hc] at h
    injection h with h
    subst h
    refine ⟨rfl, ?_⟩
    intro ha
    subst ha
    simp [generatorYields, runGenerator_nil]

/-- Witness for C9: the SOL strategy with a wallet and no assets yields the
empty result and nothing else. -/
theorem generator_first_yield_empty_witness :
    makeArweaveBundleUploadGenerator envA postOk 1 StorageType.arweaveSol
        "assets" [] none (some "kp") = Except.ok [Except.ok emptyResult] ∧
    (([Except.ok emptyResult] :
        List (Except UploadError UploadGeneratorResult)).head? =
      some (.ok emptyResult) ∧
      (([] : List AssetKey) = [] →
        ([Except.ok emptyResult] :
          List (Except UploadError UploadGeneratorResult)) =
          [Except.ok emptyResult])) :=
  ⟨rfl, generator_first_yield_empty envA postOk 1 StorageType.arweaveSol
    "assets" [] none (some "kp") [Except.ok emptyResult] rfl⟩

/-- C10: once the range of a batch is fulfilled, the continuation state is the
dropped suffix of the pending queue whatever the processing outcome; when the
batch then fails, the failed resumption is followed by a run over exactly the
pairs after the failed batch, and a key of the failed batch that does not
reappear later in the queue is reported by no yielded result of the whole
run. -/
theorem failed_batch_pairs_not_restored (env : Env)
    (post : List DataItem → Option UploadError) (pairs : List FilePair)
    (fuel : Nat) (r : BundleRange) (e : UploadError) (p : FilePair)
    (hr : getBundleRange env pairs = .ok r)
    (hfail : (stepBundle env post pairs).1 = .error e)
    (hp : p ∈ pairs.take r.count)
    (hk : p.key ∉ (pairs.drop r.count).map FilePair.key) :
    (stepBundle env post pairs).2 = pairs.drop r.count ∧
    runGenerator env post (fuel + 1) pairs =
      .error e :: runGenerator env post fuel (pairs.drop r.count) ∧
    p.key ∉ yieldedKeys (runGenerator env post (fuel + 1) pairs) := by
  have hsnd := stepBundle_snd_of_ok env post pairs r hr
  have hrun : runGenerator env post (fuel + 1) pairs =
      .error e :: runGenerator env post fuel (pairs.drop r.count) := by
    cases pairs with
    | nil => simp at hp
    | cons q qs =>
      simp only [runGenerator, List.isEmpty_cons, Bool.false_eq_true, if_false]
      rw [hfail, hsnd]
  refine ⟨hsnd, hrun, ?_⟩
  intro hmem
  rw [hrun] at hmem
  simp only [yieldedKeys] at hmem
  exact hk (runGenerator_keys_subset env post fuel (pairs.drop r.count) p.key hmem)

/-- Witness for C10: with the metadata of pair 1 missing the two-pair bundle
fails after its range was computed; the queue is left empty and the key of
the failed pair is reported nowhere. -/
theorem failed_batch_pairs_not_restored_witness :
    getBundleRange envB [pair0, pair1] = Except.ok ⟨2, 4000446⟩ ∧
    (stepBundle envB postOk [pair0, pair1]).1 =
      Except.error (UploadError.invalidMetadata "assets/1.json") ∧
    pair1 ∈ ([pair0, pair1] : List FilePair).take 2 ∧
    "1" ∉ (([pair0, pair1] : List FilePair).drop 2).map FilePair.key ∧
    ((stepBundle envB postOk [pair0, pair1]).2 =
        ([pair0, pair1] : List FilePair).drop 2 ∧
      runGenerator envB postOk 1 [pair0, pair1] =
        .error (UploadError.invalidMetadata "assets/1.json") ::
          runGenerator envB postOk 0 (([pair0, pair1] : List FilePair).drop 2) ∧
      "1" ∉ yieldedKeys (runGenerator envB postOk 1 [pair0, pair1])) :=
  ⟨rfl, rfl, by decide, by decide,
    failed_batch_pairs_not_restored envB postOk [pair0, pair1] 0 ⟨2, 4000446⟩
      (UploadError.invalidMetadata "assets/1.json") pair1 rfl rfl
      (by decide) (by decide)⟩

/-! ### Claim theorems C7 and C8 -/

/-- C7 (code bug site): processing one pair builds the three units in order
(image, metadata, link document), with the link-document unit receiving its
own address, yet the URI appended to the result is derived from the address
of the metadata unit and differs from the URI of the link-document unit. The
signing oracle of the test environment addresses each unit by the value of
its content-type tag, so the three addresses are visible in the output. -/
theorem pathManifestLink_uses_metadata_item_id :
    itemIdsOfProcessed (processBundleFilePairs envA [pair0] emptyProcessed).2 =
      ["image/png", "application/json", "application/x.arweave-manifest+json"] ∧
    linksOfProcessed (processBundleFilePairs envA [pair0] emptyProcessed).2 =
      ["https://arweave.net/application/json"] ∧
    ("https://arweave.net/application/json" : String) ≠
      "https://arweave.net/application/x.arweave-manifest+json" :=
  ⟨rfl, rfl, by decide⟩

/-- Counterexample to C8 as stated: for the pair whose metadata file is
missing, processing does fail with the invalid-metadata rejection, but a unit
from that pair has already been built and signed: the build trace of the
batch records the image unit of the failing pair. -/
theorem missing_metadata_image_unit_built_cex :
    processBundleFilePairs envB [pair1] emptyProcessed =
      ([BuiltEvent.imageUnit "1"],
        Except.error (UploadError.invalidMetadata "assets/1.json")) ∧
    BuiltEvent.imageUnit "1" ∈ (processBundleFilePairs envB [pair1] emptyProcessed).1 :=
  ⟨rfl, by decide⟩

/-- C8 as amended: when the metadata file of a pair is missing or malformed,
processing that pair fails with the invalid-metadata rejection naming the
metadata path; the image unit of that pair has already been built and signed
when the failure occurs, but its metadata and link-document units are never
built and later pairs of the batch are not processed; and the failure aborts
the whole batch before submission — whatever the submission step, the
iteration yields no batch result, only the error, while the already computed
continuation queue is kept. -/
theorem missing_metadata_aborts_batch (env : Env) (pre : List FilePair)
    (p : FilePair) (rest : List FilePair)
    (hpre : ∀ q ∈ pre, (env.manifestDoc q.manifest).isSome = true)
    (hp : env.manifestDoc p.manifest = none) :
    (∀ acc, processBundleFilePairs env (pre ++ p :: rest) acc =
      (batchEvents pre ++ [BuiltEvent.imageUnit p.key],
        .error (.invalidMetadata p.manifest))) ∧
    (∀ (post : List DataItem → Option UploadError) (pairs : List FilePair)
        (r : BundleRange), getBundleRange env pairs = .ok r →
      pairs.take r.count = pre ++ p :: rest →
      stepBundle env post pairs =
        (.error (.invalidMetadata p.manifest), pairs.drop r.count)) := by
  have main : ∀ (pre' : List FilePair),
      (∀ q ∈ pre', (env.manifestDoc q.manifest).isSome = true) →
      ∀ acc, processBundleFilePairs env (pre' ++ p :: rest) acc =
        (batchEvents pre' ++ [BuiltEvent.imageUnit p.key],
          .error (.invalidMetadata p.manifest)) := by
    intro pre'
    induction pre' with
    | nil =>
      intro _ acc
      simp only [List.nil_append, processBundleFilePairs]
      rw [processBundleFilePair_none env acc p hp]
      simp [batchEvents]
    | cons q pre'' ih =>
      intro hq acc
      obtain ⟨acc', hacc'⟩ := processBundleFilePair_some env acc q (hq q (by simp))
      have hrec := ih (fun x hx => hq x (by simp [hx])) acc'
      simp only [List.cons_append, processBundleFilePairs]
      rw [hacc']
      simp [hrec, batchEvents, List.append_assoc]
  refine ⟨main pre hpre, ?_⟩
  intro post pairs r hr htake
  have hm := main pre hpre emptyProcessed
  simp [stepBundle, hr, htake, hm]

/-- Witness for the amended C8: one good pair followed by the pair whose
metadata file is missing. -/
theorem missing_metadata_aborts_batch_witness :
    (∀ q ∈ ([pair0] : List FilePair), (envB.manifestDoc q.manifest).isSome = true) ∧
    envB.manifestDoc pair1.manifest = none ∧
    ((∀ acc, processBundleFilePairs envB ([pair0] ++ pair1 :: []) acc =
        (batchEvents [pair0] ++ [BuiltEvent.imageUnit "1"],
          Except.error (UploadError.invalidMetadata "assets/1.json"))) ∧
      (∀ (post : List DataItem → Option UploadError) (pairs : List FilePair)
          (r : BundleRange), getBundleRange envB pairs = Except.ok r →
        pairs.take r.count = [pair0] ++ pair1 :: [] →
        stepBundle envB post pairs =
          (Except.error (UploadError.invalidMetadata "assets/1.json"),
            pairs.drop r.count))) :=
  ⟨by decide, rfl,
    missing_metadata_aborts_batch envB [pair0] pair1 [] (by decide) rfl⟩

end ArweaveBundle
